import Mathlib

/-!
Verification of the phased parallel orchestration core of the futures
multi-agent analysis workflow (`workflow.py`, `main.py`).

The workflow state is a keyed record whose sequence slots are merged with
the list-concatenation reducer (`operator.add`) and whose scalar slots are
last-write-wins.  Each graph node receives the current state and returns a
partial update.  The underlying LLM agents are modelled as black boxes of
type `String → Except String (List String)`: given the query string built
by the node they either return the list of message contents produced by
`agent.invoke` or raise an exception carrying a message.
-/

/-- One entry of a result slot, mirroring the Python dicts
`\x7b"status": "success", "content": c\x7d` and
`\x7b"status": "error", "error": e\x7d`.  Fields are optional because a
Python dict may lack any key; `.get` with a default is `Option.getD`. -/
structure ResultEntry where
  status : Option String := none
  content : Option String := none
  error : Option String := none
  deriving Repr, DecidableEq

/-- The workflow state `FuturesAnalysisState` (a `TypedDict` in the source). -/
structure FuturesAnalysisState where
  symbol : String
  keyword : String
  news_result : List ResultEntry
  sentiment_result : List ResultEntry
  fundamental_result : List ResultEntry
  bullish_result : List ResultEntry
  bearish_result : List ResultEntry
  errors : List String
  first_phase_ready : Bool
  second_phase_ready : Bool
  final_report : String
  report_path : String
  deriving Repr

/-- A partial update returned by a node: only the keys present in the
returned dict are merged into the state.  Sequence slots carry the entries
to append; scalar slots are `some v` exactly when the node's dict
contains the key. -/
structure StateUpdate where
  symbol : Option String := none
  keyword : Option String := none
  news_result : List ResultEntry := []
  sentiment_result : List ResultEntry := []
  fundamental_result : List ResultEntry := []
  bullish_result : List ResultEntry := []
  bearish_result : List ResultEntry := []
  errors : List String := []
  first_phase_ready : Option Bool := none
  second_phase_ready : Option Bool := none
  final_report : Option String := none
  report_path : Option String := none
  deriving Repr

/-- Commit one partial update into the state.  Fields annotated
`Annotated[List _, operator.add]` concatenate (existing ++ update);
plain fields are overwritten when the update provides them
(last-write-wins), otherwise kept. -/
def applyUpdate (st : FuturesAnalysisState) (u : StateUpdate) : FuturesAnalysisState where
  symbol := u.symbol.getD st.symbol
  keyword := u.keyword.getD st.keyword
  news_result := st.news_result ++ u.news_result
  sentiment_result := st.sentiment_result ++ u.sentiment_result
  fundamental_result := st.fundamental_result ++ u.fundamental_result
  bullish_result := st.bullish_result ++ u.bullish_result
  bearish_result := st.bearish_result ++ u.bearish_result
  errors := st.errors ++ u.errors
  first_phase_ready := u.first_phase_ready.getD st.first_phase_ready
  second_phase_ready := u.second_phase_ready.getD st.second_phase_ready
  final_report := u.final_report.getD st.final_report
  report_path := u.report_path.getD st.report_path

/-- A black-box agent: query string in, either the contents of the
returned messages or a raised exception message. -/
abbrev AgentFn := String → Except String (List String)

/-- The content-extraction loop shared by every node:
`for msg in result["messages"]: if msg.content: content += msg.content + "\n"`. -/
def extract_messages (msgs : List String) : String :=
  msgs.foldl (fun acc m => if m = "" then acc else acc ++ m ++ "\n") ""

/-- `len(slot) > 0`, the completion test used by the joins and routers. -/
def hasEntries (l : List ResultEntry) : Bool :=
  decide (0 < l.length)

/-- Python string truthiness in an f-string:
`\x7bs if s else fallback\x7d`. -/
def nonEmptyOr (s fallback : String) : String :=
  if s = "" then fallback else s

/-- Content extraction used by the phase-2 nodes: take the slot's first
entry, and keep its content only when its status is "success"; a failure
entry or a missing content key yields the empty string. -/
def phase1_content (slot : List ResultEntry) : String :=
  match slot with
  | [] => ""
  | d :: _ => if d.status = some "success" then d.content.getD "" else ""

/-- Content extraction used by `generate_summary`: a success entry yields
its content; a non-success first entry yields the label followed by the
entry's error message (default "未知错误"); an empty slot yields "". -/
def summary_content (slot : List ResultEntry) (errLabel : String) : String :=
  match slot with
  | [] => ""
  | d :: _ =>
    if d.status = some "success" then d.content.getD ""
    else errLabel ++ d.error.getD "未知错误"

/-- Query built by `analyze_news`. -/
def news_query (st : FuturesAnalysisState) : String :=
  "分析" ++ st.keyword ++ "期货市场的新闻资讯"

/-- Query built by `analyze_sentiment`. -/
def sentiment_query (st : FuturesAnalysisState) : String :=
  "请分析" ++ st.keyword ++ "期货市场的整体情绪。考虑当前市场环境、投资者心态、资金流向等因素。"

/-- Query built by `analyze_fundamental`. -/
def fundamental_query (st : FuturesAnalysisState) : String :=
  "请分析" ++ st.keyword ++ "(" ++ st.symbol ++ ")期货的技术面数据，包括价格走势、成交量、持仓量、技术指标等。"

/-- Query built by `analyze_bullish` from the phase-1 results. -/
def bullish_query (st : FuturesAnalysisState) : String :=
  "请基于以下" ++ st.keyword ++ "(" ++ st.symbol ++
  ")期货的分析报告，给出专业的看涨分析：\n\n===================\n【新闻分析报告】\n===================\n" ++
  nonEmptyOr (phase1_content st.news_result) "新闻分析未能完成" ++
  "\n\n===================\n【情绪分析报告】\n===================\n" ++
  nonEmptyOr (phase1_content st.sentiment_result) "情绪分析未能完成" ++
  "\n\n===================\n【基本面技术分析报告】\n===================\n" ++
  nonEmptyOr (phase1_content st.fundamental_result) "基本面分析未能完成" ++
  "\n\n请从多头视角深度挖掘投资机会，给出具体的做多策略建议，并保存分析报告。\n"

/-- Query built by `analyze_bearish` from the phase-1 results. -/
def bearish_query (st : FuturesAnalysisState) : String :=
  "请基于以下" ++ st.keyword ++ "(" ++ st.symbol ++
  ")期货的分析报告，给出专业的看跌分析：\n\n===================\n【新闻分析报告】\n===================\n" ++
  nonEmptyOr (phase1_content st.news_result) "新闻分析未能完成" ++
  "\n\n===================\n【情绪分析报告】\n===================\n" ++
  nonEmptyOr (phase1_content st.sentiment_result) "情绪分析未能完成" ++
  "\n\n===================\n【基本面技术分析报告】\n===================\n" ++
  nonEmptyOr (phase1_content st.fundamental_result) "基本面分析未能完成" ++
  "\n\n请从空头视角深度挖掘风险因素，给出具体的做空/避险策略建议，并保存分析报告。\n"

/-- Combined query built by `generate_summary` from all five slots. -/
def summary_query (st : FuturesAnalysisState) : String :=
  "请基于以下五个分析报告生成综合投资报告：\n\n分析品种: " ++ st.keyword ++ " (" ++ st.symbol ++
  ")\n\n===================\n【新闻分析报告】\n===================\n" ++
  nonEmptyOr (summary_content st.news_result "新闻分析出错: ") "新闻分析未能完成" ++
  "\n\n===================\n【情绪分析报告】\n===================\n" ++
  nonEmptyOr (summary_content st.sentiment_result "情绪分析出错: ") "情绪分析未能完成" ++
  "\n\n===================\n【基本面技术分析报告】\n===================\n" ++
  nonEmptyOr (summary_content st.fundamental_result "基本面分析出错: ") "基本面分析未能完成" ++
  "\n\n===================\n【看涨分析报告（多头视角）】\n===================\n" ++
  nonEmptyOr (summary_content st.bullish_result "看涨分析出错: ") "看涨分析未能完成" ++
  "\n\n===================\n【看跌分析报告（空头视角）】\n===================\n" ++
  nonEmptyOr (summary_content st.bearish_result "看跌分析出错: ") "看跌分析未能完成" ++
  "\n\n请整合以上所有信息，特别关注看涨和看跌分析师的对立观点，形成平衡的投资判断，生成一份完整的综合投资报告，并保存到文件。\n"

/-- Entry node `start_analysis`: logs only, returns the empty update. -/
def start_analysis (_st : FuturesAnalysisState) : StateUpdate := {}

/-- Node `analyze_news`: one success entry on agent success, otherwise one
error entry in its own slot plus one string appended to `errors`. -/
def analyze_news (st : FuturesAnalysisState) (agent : AgentFn) : StateUpdate :=
  match agent (news_query st) with
  | .ok msgs =>
    { news_result := [{ status := some "success", content := some (extract_messages msgs) }] }
  | .error e =>
    { news_result := [{ status := some "error", error := some e }]
      errors := ["新闻分析出错: " ++ e] }

/-- Node `analyze_sentiment`. -/
def analyze_sentiment (st : FuturesAnalysisState) (agent : AgentFn) : StateUpdate :=
  match agent (sentiment_query st) with
  | .ok msgs =>
    { sentiment_result := [{ status := some "success", content := some (extract_messages msgs) }] }
  | .error e =>
    { sentiment_result := [{ status := some "error", error := some e }]
      errors := ["情绪分析出错: " ++ e] }

/-- Node `analyze_fundamental`. -/
def analyze_fundamental (st : FuturesAnalysisState) (agent : AgentFn) : StateUpdate :=
  match agent (fundamental_query st) with
  | .ok msgs =>
    { fundamental_result := [{ status := some "success", content := some (extract_messages msgs) }] }
  | .error e =>
    { fundamental_result := [{ status := some "error", error := some e }]
      errors := ["基本面分析出错: " ++ e] }

/-- Node `analyze_bullish`. -/
def analyze_bullish (st : FuturesAnalysisState) (agent : AgentFn) : StateUpdate :=
  match agent (bullish_query st) with
  | .ok msgs =>
    { bullish_result := [{ status := some "success", content := some (extract_messages msgs) }] }
  | .error e =>
    { bullish_result := [{ status := some "error", error := some e }]
      errors := ["看涨分析出错: " ++ e] }

/-- Node `analyze_bearish`. -/
def analyze_bearish (st : FuturesAnalysisState) (agent : AgentFn) : StateUpdate :=
  match agent (bearish_query st) with
  | .ok msgs =>
    { bearish_result := [{ status := some "success", content := some (extract_messages msgs) }] }
  | .error e =>
    { bearish_result := [{ status := some "error", error := some e }]
      errors := ["看跌分析出错: " ++ e] }

/-- Aggregation node `generate_summary`: writes the extracted agent output
to `final_report`; if the aggregation operation raises, writes a synthetic
failure string and appends to `errors`. -/
def generate_summary (st : FuturesAnalysisState) (agent : AgentFn) : StateUpdate :=
  match agent (summary_query st) with
  | .ok msgs =>
    { final_report := some (extract_messages msgs) }
  | .error e =>
    { final_report := some ("汇总报告生成失败: " ++ e)
      errors := ["汇总分析出错: " ++ e] }

/-- Terminal node `end_workflow`: logs only, returns the empty update. -/
def end_workflow (_st : FuturesAnalysisState) : StateUpdate := {}

/-- Barrier node `first_phase_join`: recomputes the phase-1 readiness flag
from the non-emptiness of the three phase-1 slots. -/
def first_phase_join (st : FuturesAnalysisState) : StateUpdate :=
  { first_phase_ready :=
      some (hasEntries st.news_result && hasEntries st.sentiment_result &&
            hasEntries st.fundamental_result) }

/-- Barrier node `second_phase_join`: recomputes the phase-2 readiness flag
from the non-emptiness of the two phase-2 slots. -/
def second_phase_join (st : FuturesAnalysisState) : StateUpdate :=
  { second_phase_ready :=
      some (hasEntries st.bullish_result && hasEntries st.bearish_result) }

/-- Outcome of a conditional-edge router: a fan-out of `Send` invocations,
a plain hop to a named node, or the terminal state `END`. -/
inductive RouteDecision where
  | sends (targets : List String)
  | node (target : String)
  | terminal
  deriving Repr, DecidableEq

/-- Router on `start`: fans out to the three phase-1 task nodes. -/
def dispatch_first_phase (_st : FuturesAnalysisState) : RouteDecision :=
  .sends ["news_agent", "sentiment_agent", "fundamental_agent"]

/-- Router on `first_phase_join`: if all three phase-1 slots are non-empty
it emits `Send`s to the two phase-2 task nodes, otherwise it returns `END`. -/
def route_and_dispatch_second (st : FuturesAnalysisState) : RouteDecision :=
  if hasEntries st.news_result && hasEntries st.sentiment_result &&
     hasEntries st.fundamental_result then
    .sends ["bullish_agent", "bearish_agent"]
  else
    .terminal

/-- Router on `second_phase_join`: returns the label "summary" when both
phase-2 slots are non-empty and "wait" otherwise. -/
def route_second_phase (st : FuturesAnalysisState) : String :=
  if hasEntries st.bullish_result && hasEntries st.bearish_result then "summary"
  else "wait"

/-- The conditional-edge mapping attached to `second_phase_join`:
"summary" goes to the node `summary_agent` and "wait" goes to `END`;
any other label is not in the mapping. -/
def second_phase_edges (label : String) : Option RouteDecision :=
  if label = "summary" then some (.node "summary_agent")
  else if label = "wait" then some .terminal
  else none

/-- The initial state built by `analyze_futures` before invoking the graph. -/
def initial_state (symbol keyword : String) : FuturesAnalysisState where
  symbol := symbol
  keyword := keyword
  news_result := []
  sentiment_result := []
  fundamental_result := []
  bullish_result := []
  bearish_result := []
  errors := []
  first_phase_ready := false
  second_phase_ready := false
  final_report := ""
  report_path := ""

/-- One node of the compiled workflow graph; agent-backed nodes carry
their black-box agent. -/
inductive WorkflowNode where
  | start
  | news (agent : AgentFn)
  | sentiment (agent : AgentFn)
  | fundamental (agent : AgentFn)
  | firstJoin
  | bullish (agent : AgentFn)
  | bearish (agent : AgentFn)
  | secondJoin
  | summary (agent : AgentFn)
  | endNode

/-- The partial update produced by running one node on the current state. -/
def nodeUpdate (st : FuturesAnalysisState) : WorkflowNode → StateUpdate
  | .start => start_analysis st
  | .news a => analyze_news st a
  | .sentiment a => analyze_sentiment st a
  | .fundamental a => analyze_fundamental st a
  | .firstJoin => first_phase_join st
  | .bullish a => analyze_bullish st a
  | .bearish a => analyze_bearish st a
  | .secondJoin => second_phase_join st
  | .summary a => generate_summary st a
  | .endNode => end_workflow st

/-- Run one node and commit its update. -/
def runNode (st : FuturesAnalysisState) (n : WorkflowNode) : FuturesAnalysisState :=
  applyUpdate st (nodeUpdate st n)

/-- Run a sequence of node executions from a state. -/
def runWorkflow (st : FuturesAnalysisState) (ns : List WorkflowNode) : FuturesAnalysisState :=
  ns.foldl runNode st

/-- Exit behaviour of `main` on the analysis path (`main.py`): the body
wraps `analyze_futures` in try/except, returns 0 at the end of the try
block whatever the returned state holds, and returns 1 exactly when an
exception escapes the run; `sys.exit(main())` makes this the process
exit code. -/
def main_exit (outcome : Except String FuturesAnalysisState) : Nat :=
  match outcome with
  | .ok _ => 0
  | .error _ => 1

/-! ## Helper lemmas -/

/-- `hasEntries` is exactly non-emptiness of the slot. -/
theorem hasEntries_iff (l : List ResultEntry) : hasEntries l = true ↔ l ≠ [] := by
  simp [hasEntries, List.length_pos]

/-- A concatenation whose left part is non-empty is a non-empty string. -/
theorem append_left_ne_empty (a b : String) (h : a.length ≠ 0) : a ++ b ≠ "" := by
  intro hab
  have h2 := congrArg String.length hab
  rw [String.length_append] at h2
  have h0 : ("" : String).length = 0 := rfl
  omega

/-! ## Claims -/

/-- Claim C1: the router at the first-phase barrier emits `Send`s to exactly
the two phase-2 task nodes `bullish_agent` and `bearish_agent` iff
`news_result`, `sentiment_result` and `fundamental_result` are all
non-empty, and otherwise routes to `END`; the router at the second-phase
barrier routes to `summary_agent` iff `bullish_result` and `bearish_result`
are both non-empty, and otherwise to `END`.  In particular a false
readiness check never leads to the next phase's task nodes. -/
theorem routers_gate_phases (st : FuturesAnalysisState) :
    (route_and_dispatch_second st = .sends ["bullish_agent", "bearish_agent"] ↔
      (st.news_result ≠ [] ∧ st.sentiment_result ≠ [] ∧ st.fundamental_result ≠ [])) ∧
    (route_and_dispatch_second st = .terminal ↔
      ¬(st.news_result ≠ [] ∧ st.sentiment_result ≠ [] ∧ st.fundamental_result ≠ [])) ∧
    (second_phase_edges (route_second_phase st) = some (.node "summary_agent") ↔
      (st.bullish_result ≠ [] ∧ st.bearish_result ≠ [])) ∧
    (second_phase_edges (route_second_phase st) = some .terminal ↔
      ¬(st.bullish_result ≠ [] ∧ st.bearish_result ≠ [])) := by
  have key1 : (hasEntries st.news_result && hasEntries st.sentiment_result &&
      hasEntries st.fundamental_result) = true ↔
      (st.news_result ≠ [] ∧ st.sentiment_result ≠ [] ∧ st.fundamental_result ≠ []) := by
    simp [hasEntries, List.length_pos, and_assoc]
  have key2 : (hasEntries st.bullish_result && hasEntries st.bearish_result) = true ↔
      (st.bullish_result ≠ [] ∧ st.bearish_result ≠ []) := by
    simp [hasEntries, List.length_pos]
  refine ⟨?_, ?_, ?_, ?_⟩
  · rw [route_and_dispatch_second]
    split_ifs with h
    · exact iff_of_true rfl (key1.mp h)
    · exact iff_of_false (by decide) (fun hp => h (key1.mpr hp))
  · rw [route_and_dispatch_second]
    split_ifs with h
    · exact iff_of_false (by decide) (fun hn => hn (key1.mp h))
    · exact iff_of_true rfl (fun hp => h (key1.mpr hp))
  · rw [route_second_phase]
    split_ifs with h
    · exact iff_of_true (by decide) (key2.mp h)
    · exact iff_of_false (by decide) (fun hp => h (key2.mpr hp))
  · rw [route_second_phase]
    split_ifs with h
    · exact iff_of_false (by decide) (fun hn => hn (key2.mp h))
    · exact iff_of_true (by decide) (fun hp => h (key2.mpr hp))

/-- Claim C2: `first_phase_join` sets `first_phase_ready := true` iff each
of the three phase-1 slots has at least one entry (success or failure),
and `second_phase_join` sets `second_phase_ready := true` iff both phase-2
slots have at least one entry. -/
theorem joins_ready_iff_slots_nonempty (st : FuturesAnalysisState) :
    ((first_phase_join st).first_phase_ready = some true ↔
      (st.news_result ≠ [] ∧ st.sentiment_result ≠ [] ∧ st.fundamental_result ≠ [])) ∧
    ((second_phase_join st).second_phase_ready = some true ↔
      (st.bullish_result ≠ [] ∧ st.bearish_result ≠ [])) := by
  constructor <;>
    simp [first_phase_join, second_phase_join, hasEntries, List.length_pos, and_assoc]

/-- Claim C6: committing any sequence of partial updates concatenates each
`operator.add` slot: the resulting slot is the prior contents followed by
the appended entries of each update in order, never overwriting or erasing
earlier entries; the slot's final length is the prior length plus one
contribution per update. -/
theorem append_only_merge (st : FuturesAnalysisState) (us : List StateUpdate) :
    (us.foldl applyUpdate st).news_result
      = st.news_result ++ (us.map (fun u => u.news_result)).flatten ∧
    (us.foldl applyUpdate st).sentiment_result
      = st.sentiment_result ++ (us.map (fun u => u.sentiment_result)).flatten ∧
    (us.foldl applyUpdate st).fundamental_result
      = st.fundamental_result ++ (us.map (fun u => u.fundamental_result)).flatten ∧
    (us.foldl applyUpdate st).bullish_result
      = st.bullish_result ++ (us.map (fun u => u.bullish_result)).flatten ∧
    (us.foldl applyUpdate st).bearish_result
      = st.bearish_result ++ (us.map (fun u => u.bearish_result)).flatten ∧
    (us.foldl applyUpdate st).errors
      = st.errors ++ (us.map (fun u => u.errors)).flatten := by
  induction us generalizing st with
  | nil => simp
  | cons u rest ih =>
    obtain ⟨h1, h2, h3, h4, h5, h6⟩ := ih (applyUpdate st u)
    simp only [List.foldl_cons, List.map_cons, List.flatten_cons]
    refine ⟨?_, ?_, ?_, ?_, ?_, ?_⟩
    · rw [h1]; simp [applyUpdate, List.append_assoc]
    · rw [h2]; simp [applyUpdate, List.append_assoc]
    · rw [h3]; simp [applyUpdate, List.append_assoc]
    · rw [h4]; simp [applyUpdate, List.append_assoc]
    · rw [h5]; simp [applyUpdate, List.append_assoc]
    · rw [h6]; simp [applyUpdate, List.append_assoc]

/-- No node of the workflow ever writes the `report_path` key. -/
theorem nodeUpdate_report_path_none (st : FuturesAnalysisState) (n : WorkflowNode) :
    (nodeUpdate st n).report_path = none := by
  cases n with
  | start => rfl
  | news a => cases h : a (news_query st) <;> simp [nodeUpdate, analyze_news, h]
  | sentiment a => cases h : a (sentiment_query st) <;> simp [nodeUpdate, analyze_sentiment, h]
  | fundamental a => cases h : a (fundamental_query st) <;> simp [nodeUpdate, analyze_fundamental, h]
  | firstJoin => rfl
  | bullish a => cases h : a (bullish_query st) <;> simp [nodeUpdate, analyze_bullish, h]
  | bearish a => cases h : a (bearish_query st) <;> simp [nodeUpdate, analyze_bearish, h]
  | secondJoin => rfl
  | summary a => cases h : a (summary_query st) <;> simp [nodeUpdate, generate_summary, h]
  | endNode => rfl

/-- Running any sequence of nodes leaves `report_path` untouched. -/
theorem runWorkflow_report_path (ns : List WorkflowNode) (st : FuturesAnalysisState) :
    (runWorkflow st ns).report_path = st.report_path := by
  induction ns generalizing st with
  | nil => rfl
  | cons n rest ih =>
    show (runWorkflow (runNode st n) rest).report_path = st.report_path
    rw [ih]
    simp [runNode, applyUpdate, nodeUpdate_report_path_none]

/-- Claim C9: for every complete run, `report_path` equals its initial
value, the empty string set by `analyze_futures`: no node's partial update
ever contains the `report_path` key, so the field is unchanged at `END`. -/
theorem report_path_unchanged (symbol keyword : String) (ns : List WorkflowNode) :
    (runWorkflow (initial_state symbol keyword) ns).report_path = "" ∧
    ∀ (st : FuturesAnalysisState) (n : WorkflowNode), (nodeUpdate st n).report_path = none := by
  refine ⟨?_, fun st n => nodeUpdate_report_path_none st n⟩
  rw [runWorkflow_report_path]
  rfl

/-- Claim C3: every per-task node returns exactly one `ResultEntry` in its
own result slot; on agent success the update is exactly the success entry
holding the extracted content, with nothing appended to `errors`; if the
underlying agent invocation raises, the update is instead exactly the
single error entry in the node's own slot plus exactly one human-readable
string appended to `errors`.  Each node is a total function of the agent's
outcome, so the exception never propagates past the node boundary. -/
theorem task_nodes_single_entry_contained (st : FuturesAnalysisState) (a : AgentFn) :
    ((analyze_news st a).news_result.length = 1 ∧
      (∀ msgs, a (news_query st) = Except.ok msgs →
        analyze_news st a =
          { news_result := [{ status := some "success",
                              content := some (extract_messages msgs) }] }) ∧
      (∀ e, a (news_query st) = Except.error e →
        analyze_news st a =
          { news_result := [{ status := some "error", error := some e }],
            errors := ["新闻分析出错: " ++ e] })) ∧
    ((analyze_sentiment st a).sentiment_result.length = 1 ∧
      (∀ msgs, a (sentiment_query st) = Except.ok msgs →
        analyze_sentiment st a =
          { sentiment_result := [{ status := some "success",
                                   content := some (extract_messages msgs) }] }) ∧
      (∀ e, a (sentiment_query st) = Except.error e →
        analyze_sentiment st a =
          { sentiment_result := [{ status := some "error", error := some e }],
            errors := ["情绪分析出错: " ++ e] })) ∧
    ((analyze_fundamental st a).fundamental_result.length = 1 ∧
      (∀ msgs, a (fundamental_query st) = Except.ok msgs →
        analyze_fundamental st a =
          { fundamental_result := [{ status := some "success",
                                     content := some (extract_messages msgs) }] }) ∧
      (∀ e, a (fundamental_query st) = Except.error e →
        analyze_fundamental st a =
          { fundamental_result := [{ status := some "error", error := some e }],
            errors := ["基本面分析出错: " ++ e] })) ∧
    ((analyze_bullish st a).bullish_result.length = 1 ∧
      (∀ msgs, a (bullish_query st) = Except.ok msgs →
        analyze_bullish st a =
          { bullish_result := [{ status := some "success",
                                 content := some (extract_messages msgs) }] }) ∧
      (∀ e, a (bullish_query st) = Except.error e →
        analyze_bullish st a =
          { bullish_result := [{ status := some "error", error := some e }],
            errors := ["看涨分析出错: " ++ e] })) ∧
    ((analyze_bearish st a).bearish_result.length = 1 ∧
      (∀ msgs, a (bearish_query st) = Except.ok msgs →
        analyze_bearish st a =
          { bearish_result := [{ status := some "success",
                                 content := some (extract_messages msgs) }] }) ∧
      (∀ e, a (bearish_query st) = Except.error e →
        analyze_bearish st a =
          { bearish_result := [{ status := some "error", error := some e }],
            errors := ["看跌分析出错: " ++ e] })) := by
  refine ⟨⟨?_, ?_, ?_⟩, ⟨?_, ?_, ?_⟩, ⟨?_, ?_, ?_⟩, ⟨?_, ?_, ?_⟩, ⟨?_, ?_, ?_⟩⟩
  · cases h : a (news_query st) <;> simp [analyze_news, h]
  · intro msgs h; simp [analyze_news, h]
  · intro e h; simp [analyze_news, h]
  · cases h : a (sentiment_query st) <;> simp [analyze_sentiment, h]
  · intro msgs h; simp [analyze_sentiment, h]
  · intro e h; simp [analyze_sentiment, h]
  · cases h : a (fundamental_query st) <;> simp [analyze_fundamental, h]
  · intro msgs h; simp [analyze_fundamental, h]
  · intro e h; simp [analyze_fundamental, h]
  · cases h : a (bullish_query st) <;> simp [analyze_bullish, h]
  · intro msgs h; simp [analyze_bullish, h]
  · intro e h; simp [analyze_bullish, h]
  · cases h : a (bearish_query st) <;> simp [analyze_bearish, h]
  · intro msgs h; simp [analyze_bearish, h]
  · intro e h; simp [analyze_bearish, h]

/-- Witness for claim C3: the news node at a concrete raising agent. -/
theorem task_nodes_single_entry_contained_witness :
    analyze_news (initial_state "ss" "不锈钢") (fun _ => Except.error "boom") =
      { news_result := [{ status := some "error", error := some "boom" }],
        errors := ["新闻分析出错: " ++ "boom"] } :=
  (task_nodes_single_entry_contained (initial_state "ss" "不锈钢")
    (fun _ => Except.error "boom")).1.2.2 "boom" rfl

/-- All result-slot entries carried by one partial update. -/
def updateEntries (u : StateUpdate) : List ResultEntry :=
  u.news_result ++ u.sentiment_result ++ u.fundamental_result ++
  u.bullish_result ++ u.bearish_result

/-- Exactly one variant of the tagged union is populated: a status tag of
"success" with a content payload and no error message, or a status tag of
"error" with an error message and no content payload. -/
def entryWellFormed (d : ResultEntry) : Prop :=
  (d.status = some "success" ∧ d.content.isSome = true ∧ d.error = none) ∨
  (d.status = some "error" ∧ d.error.isSome = true ∧ d.content = none)

/-- Claim C7: every entry any node of the workflow appends to any result
slot is a tagged record of exactly one variant — either a success entry
with a content payload or an error entry with an error message, never
both, and always carrying a status tag. -/
theorem entries_single_variant (st : FuturesAnalysisState) (n : WorkflowNode) :
    ∀ d ∈ updateEntries (nodeUpdate st n), entryWellFormed d := by
  cases n with
  | start => simp [updateEntries, nodeUpdate, start_analysis]
  | news a => cases h : a (news_query st) <;>
      simp [updateEntries, nodeUpdate, analyze_news, h, entryWellFormed]
  | sentiment a => cases h : a (sentiment_query st) <;>
      simp [updateEntries, nodeUpdate, analyze_sentiment, h, entryWellFormed]
  | fundamental a => cases h : a (fundamental_query st) <;>
      simp [updateEntries, nodeUpdate, analyze_fundamental, h, entryWellFormed]
  | firstJoin => simp [updateEntries, nodeUpdate, first_phase_join]
  | bullish a => cases h : a (bullish_query st) <;>
      simp [updateEntries, nodeUpdate, analyze_bullish, h, entryWellFormed]
  | bearish a => cases h : a (bearish_query st) <;>
      simp [updateEntries, nodeUpdate, analyze_bearish, h, entryWellFormed]
  | secondJoin => simp [updateEntries, nodeUpdate, second_phase_join]
  | summary a => cases h : a (summary_query st) <;>
      simp [updateEntries, nodeUpdate, generate_summary, h]
  | endNode => simp [updateEntries, nodeUpdate, end_workflow]

/-- Witness for claim C7: the entry appended by a failing news node. -/
theorem entries_single_variant_witness :
    entryWellFormed { status := some "error", error := some "boom" } :=
  entries_single_variant (initial_state "ss" "不锈钢")
    (.news (fun _ => Except.error "boom"))
    { status := some "error", error := some "boom" } (by decide)

/-- Claim C8: the command-line entry point returns exit code 0 whenever the
orchestrator run completes — also when the returned state's `errors` list
is non-empty, since collected errors are only printed as warnings — and
returns exit code 1 exactly when an exception escapes the whole
`analyze_futures` run. -/
theorem main_exit_codes (st : FuturesAnalysisState) (e : String) :
    main_exit (Except.ok st) = 0 ∧
    (st.errors ≠ [] → main_exit (Except.ok st) = 0) ∧
    main_exit (Except.error e) = 1 :=
  ⟨rfl, fun _ => rfl, rfl⟩

/-- Witness for claim C8: a completed run with one collected error still
exits with code 0. -/
theorem main_exit_codes_witness :
    main_exit (Except.ok
      { initial_state "ss" "不锈钢" with errors := ["新闻分析出错: boom"] }) = 0 :=
  (main_exit_codes
    { initial_state "ss" "不锈钢" with errors := ["新闻分析出错: boom"] } "x").2.1
    (by decide)

/-- Counterexample to claim C4 as stated: at a state where every upstream
task failed, a summary agent invocation that completes successfully but
returns no message content makes `generate_summary` write the empty
string to `final_report`, so `final_report` is not always non-empty. -/
theorem generate_summary_empty_report_cx :
    (applyUpdate
      { initial_state "ss" "不锈钢" with
          news_result := [{ status := some "error", error := some "e1" }],
          sentiment_result := [{ status := some "error", error := some "e2" }],
          fundamental_result := [{ status := some "error", error := some "e3" }],
          bullish_result := [{ status := some "error", error := some "e4" }],
          bearish_result := [{ status := some "error", error := some "e5" }] }
      (generate_summary
        { initial_state "ss" "不锈钢" with
            news_result := [{ status := some "error", error := some "e1" }],
            sentiment_result := [{ status := some "error", error := some "e2" }],
            fundamental_result := [{ status := some "error", error := some "e3" }],
            bullish_result := [{ status := some "error", error := some "e4" }],
            bearish_result := [{ status := some "error", error := some "e5" }] }
        (fun _ => Except.ok []))).final_report = "" := rfl

/-- Claim C4 amended: `generate_summary` always writes `final_report`: on
success of the underlying summary agent it holds the concatenated agent
output (empty only when the agent returns no non-empty message), and if
the aggregation operation itself raises, it holds a non-empty synthetic
failure string while an aggregation-failure message is appended to
`errors`; the node is total, so the run still reaches `END`. -/
theorem generate_summary_always_sets_final_report
    (st : FuturesAnalysisState) (a : AgentFn) :
    (generate_summary st a).final_report.isSome = true ∧
    (∀ e, a (summary_query st) = Except.error e →
      generate_summary st a =
        { final_report := some ("汇总报告生成失败: " ++ e),
          errors := ["汇总分析出错: " ++ e] } ∧
      ("汇总报告生成失败: " ++ e) ≠ "") ∧
    (∀ msgs, a (summary_query st) = Except.ok msgs →
      generate_summary st a = { final_report := some (extract_messages msgs) }) := by
  refine ⟨?_, ?_, ?_⟩
  · cases h : a (summary_query st) <;> simp [generate_summary, h]
  · intro e h
    exact ⟨by simp [generate_summary, h], append_left_ne_empty _ _ (by decide)⟩
  · intro msgs h; simp [generate_summary, h]

/-- Witness for the amended claim C4: a raising summary agent yields the
synthetic failure report plus one error string. -/
theorem generate_summary_always_sets_final_report_witness :
    generate_summary (initial_state "ss" "不锈钢") (fun _ => Except.error "boom") =
      { final_report := some ("汇总报告生成失败: " ++ "boom"),
        errors := ["汇总分析出错: " ++ "boom"] } :=
  ((generate_summary_always_sets_final_report (initial_state "ss" "不锈钢")
    (fun _ => Except.error "boom")).2.1 "boom" rfl).1

/-- Claim C10: the phase-2 nodes treat a failure entry in a phase-1 slot
exactly like an absent slot: content is extracted only when the first
entry has status "success", so a failed phase-1 task contributes the
empty string, the constructed bullish/bearish queries equal the queries
built with that slot absent, the inserted section is the generic
placeholder — the error message is not forwarded — unlike
`generate_summary`, whose extraction substitutes the prefixed error
message itself. -/
theorem phase2_ignores_failure_messages (st : FuturesAnalysisState) :
    (∀ d rest, st.news_result = d :: rest → d.status = some "error" →
      phase1_content st.news_result = "" ∧
      nonEmptyOr (phase1_content st.news_result) "新闻分析未能完成" = "新闻分析未能完成" ∧
      bullish_query st = bullish_query { st with news_result := [] } ∧
      bearish_query st = bearish_query { st with news_result := [] } ∧
      summary_content st.news_result "新闻分析出错: "
        = "新闻分析出错: " ++ d.error.getD "未知错误") ∧
    (∀ d rest, st.sentiment_result = d :: rest → d.status = some "error" →
      phase1_content st.sentiment_result = "" ∧
      nonEmptyOr (phase1_content st.sentiment_result) "情绪分析未能完成" = "情绪分析未能完成" ∧
      bullish_query st = bullish_query { st with sentiment_result := [] } ∧
      bearish_query st = bearish_query { st with sentiment_result := [] } ∧
      summary_content st.sentiment_result "情绪分析出错: "
        = "情绪分析出错: " ++ d.error.getD "未知错误") ∧
    (∀ d rest, st.fundamental_result = d :: rest → d.status = some "error" →
      phase1_content st.fundamental_result = "" ∧
      nonEmptyOr (phase1_content st.fundamental_result) "基本面分析未能完成" = "基本面分析未能完成" ∧
      bullish_query st = bullish_query { st with fundamental_result := [] } ∧
      bearish_query st = bearish_query { st with fundamental_result := [] } ∧
      summary_content st.fundamental_result "基本面分析出错: "
        = "基本面分析出错: " ++ d.error.getD "未知错误") := by
  refine ⟨?_, ?_, ?_⟩
  · intro d rest h1 h2
    have hc : phase1_content st.news_result = "" := by
      rw [h1]; simp [phase1_content, h2]
    refine ⟨hc, ?_, ?_, ?_, ?_⟩
    · simp [nonEmptyOr, hc]
    · simp only [bullish_query]
      rw [hc]
      rfl
    · simp only [bearish_query]
      rw [hc]
      rfl
    · rw [h1]; simp [summary_content, h2]
  · intro d rest h1 h2
    have hc : phase1_content st.sentiment_result = "" := by
      rw [h1]; simp [phase1_content, h2]
    refine ⟨hc, ?_, ?_, ?_, ?_⟩
    · simp [nonEmptyOr, hc]
    · simp only [bullish_query]
      rw [hc]
      rfl
    · simp only [bearish_query]
      rw [hc]
      rfl
    · rw [h1]; simp [summary_content, h2]
  · intro d rest h1 h2
    have hc : phase1_content st.fundamental_result = "" := by
      rw [h1]; simp [phase1_content, h2]
    refine ⟨hc, ?_, ?_, ?_, ?_⟩
    · simp [nonEmptyOr, hc]
    · simp only [bullish_query]
      rw [hc]
      rfl
    · simp only [bearish_query]
      rw [hc]
      rfl
    · rw [h1]; simp [summary_content, h2]

/-- Witness for claim C10: a concrete failed news entry contributes the
placeholder to the bullish query while the summary extraction keeps the
prefixed error message. -/
theorem phase2_ignores_failure_messages_witness :
    summary_content [{ status := some "error", error := some "boom" }] "新闻分析出错: "
      = "新闻分析出错: " ++ (some "boom" : Option String).getD "未知错误" :=
  ((phase2_ignores_failure_messages
      { initial_state "ss" "不锈钢" with
          news_result := [{ status := some "error", error := some "boom" }] }).1
    { status := some "error", error := some "boom" } [] rfl rfl).2.2.2.2

/-- A non-empty string passes Python truthiness unchanged. -/
theorem nonEmptyOr_of_ne (s fb : String) (h : ¬ s = "") : nonEmptyOr s fb = s := by
  simp [nonEmptyOr, h]

/-- Claim C5: `generate_summary` reads all five result slots; for every
slot whose first entry has status "error", the entry's error message,
prefixed with an explanatory label, is used as substitute content and
appears verbatim inside the combined summary query; the aggregation
output is then written to `final_report`, a plain last-write-wins scalar
that overwrites the field on commit. -/
theorem generate_summary_substitutes_error_messages
    (st : FuturesAnalysisState) (a : AgentFn) :
    (∀ d rest e, st.news_result = d :: rest → d.status = some "error" → d.error = some e →
      ∃ p s, summary_query st = p ++ ("新闻分析出错: " ++ e) ++ s) ∧
    (∀ d rest e, st.sentiment_result = d :: rest → d.status = some "error" → d.error = some e →
      ∃ p s, summary_query st = p ++ ("情绪分析出错: " ++ e) ++ s) ∧
    (∀ d rest e, st.fundamental_result = d :: rest → d.status = some "error" → d.error = some e →
      ∃ p s, summary_query st = p ++ ("基本面分析出错: " ++ e) ++ s) ∧
    (∀ d rest e, st.bullish_result = d :: rest → d.status = some "error" → d.error = some e →
      ∃ p s, summary_query st = p ++ ("看涨分析出错: " ++ e) ++ s) ∧
    (∀ d rest e, st.bearish_result = d :: rest → d.status = some "error" → d.error = some e →
      ∃ p s, summary_query st = p ++ ("看跌分析出错: " ++ e) ++ s) ∧
    (generate_summary st a).final_report.isSome = true ∧
    (∀ r, (generate_summary st a).final_report = some r →
      (applyUpdate st (generate_summary st a)).final_report = r) := by
  refine ⟨?_, ?_, ?_, ?_, ?_, ?_, ?_⟩
  · intro d rest e h1 h2 h3
    have hc : summary_content st.news_result "新闻分析出错: " = "新闻分析出错: " ++ e := by
      rw [h1]; simp [summary_content, h2, h3]
    have hne : ¬("新闻分析出错: " ++ e = "") := append_left_ne_empty _ _ (by decide)
    refine ⟨"请基于以下五个分析报告生成综合投资报告：\n\n分析品种: " ++ st.keyword ++ " (" ++
        st.symbol ++ ")\n\n===================\n【新闻分析报告】\n===================\n",
      "\n\n===================\n【情绪分析报告】\n===================\n" ++
        nonEmptyOr (summary_content st.sentiment_result "情绪分析出错: ") "情绪分析未能完成" ++
        "\n\n===================\n【基本面技术分析报告】\n===================\n" ++
        nonEmptyOr (summary_content st.fundamental_result "基本面分析出错: ") "基本面分析未能完成" ++
        "\n\n===================\n【看涨分析报告（多头视角）】\n===================\n" ++
        nonEmptyOr (summary_content st.bullish_result "看涨分析出错: ") "看涨分析未能完成" ++
        "\n\n===================\n【看跌分析报告（空头视角）】\n===================\n" ++
        nonEmptyOr (summary_content st.bearish_result "看跌分析出错: ") "看跌分析未能完成" ++
        "\n\n请整合以上所有信息，特别关注看涨和看跌分析师的对立观点，形成平衡的投资判断，生成一份完整的综合投资报告，并保存到文件。\n", ?_⟩
    simp only [summary_query, hc,
      nonEmptyOr_of_ne ("新闻分析出错: " ++ e) "新闻分析未能完成" hne, String.append_assoc]
  · intro d rest e h1 h2 h3
    have hc : summary_content st.sentiment_result "情绪分析出错: " = "情绪分析出错: " ++ e := by
      rw [h1]; simp [summary_content, h2, h3]
    have hne : ¬("情绪分析出错: " ++ e = "") := append_left_ne_empty _ _ (by decide)
    refine ⟨"请基于以下五个分析报告生成综合投资报告：\n\n分析品种: " ++ st.keyword ++ " (" ++
        st.symbol ++ ")\n\n===================\n【新闻分析报告】\n===================\n" ++
        nonEmptyOr (summary_content st.news_result "新闻分析出错: ") "新闻分析未能完成" ++
        "\n\n===================\n【情绪分析报告】\n===================\n",
      "\n\n===================\n【基本面技术分析报告】\n===================\n" ++
        nonEmptyOr (summary_content st.fundamental_result "基本面分析出错: ") "基本面分析未能完成" ++
        "\n\n===================\n【看涨分析报告（多头视角）】\n===================\n" ++
        nonEmptyOr (summary_content st.bullish_result "看涨分析出错: ") "看涨分析未能完成" ++
        "\n\n===================\n【看跌分析报告（空头视角）】\n===================\n" ++
        nonEmptyOr (summary_content st.bearish_result "看跌分析出错: ") "看跌分析未能完成" ++
        "\n\n请整合以上所有信息，特别关注看涨和看跌分析师的对立观点，形成平衡的投资判断，生成一份完整的综合投资报告，并保存到文件。\n", ?_⟩
    simp only [summary_query, hc,
      nonEmptyOr_of_ne ("情绪分析出错: " ++ e) "情绪分析未能完成" hne, String.append_assoc]
  · intro d rest e h1 h2 h3
    have hc : summary_content st.fundamental_result "基本面分析出错: " = "基本面分析出错: " ++ e := by
      rw [h1]; simp [summary_content, h2, h3]
    have hne : ¬("基本面分析出错: " ++ e = "") := append_left_ne_empty _ _ (by decide)
    refine ⟨"请基于以下五个分析报告生成综合投资报告：\n\n分析品种: " ++ st.keyword ++ " (" ++
        st.symbol ++ ")\n\n===================\n【新闻分析报告】\n===================\n" ++
        nonEmptyOr (summary_content st.news_result "新闻分析出错: ") "新闻分析未能完成" ++
        "\n\n===================\n【情绪分析报告】\n===================\n" ++
        nonEmptyOr (summary_content st.sentiment_result "情绪分析出错: ") "情绪分析未能完成" ++
        "\n\n===================\n【基本面技术分析报告】\n===================\n",
      "\n\n===================\n【看涨分析报告（多头视角）】\n===================\n" ++
        nonEmptyOr (summary_content st.bullish_result "看涨分析出错: ") "看涨分析未能完成" ++
        "\n\n===================\n【看跌分析报告（空头视角）】\n===================\n" ++
        nonEmptyOr (summary_content st.bearish_result "看跌分析出错: ") "看跌分析未能完成" ++
        "\n\n请整合以上所有信息，特别关注看涨和看跌分析师的对立观点，形成平衡的投资判断，生成一份完整的综合投资报告，并保存到文件。\n", ?_⟩
    simp only [summary_query, hc,
      nonEmptyOr_of_ne ("基本面分析出错: " ++ e) "基本面分析未能完成" hne, String.append_assoc]
  · intro d rest e h1 h2 h3
    have hc : summary_content st.bullish_result "看涨分析出错: " = "看涨分析出错: " ++ e := by
      rw [h1]; simp [summary_content, h2, h3]
    have hne : ¬("看涨分析出错: " ++ e = "") := append_left_ne_empty _ _ (by decide)
    refine ⟨"请基于以下五个分析报告生成综合投资报告：\n\n分析品种: " ++ st.keyword ++ " (" ++
        st.symbol ++ ")\n\n===================\n【新闻分析报告】\n===================\n" ++
        nonEmptyOr (summary_content st.news_result "新闻分析出错: ") "新闻分析未能完成" ++
        "\n\n===================\n【情绪分析报告】\n===================\n" ++
        nonEmptyOr (summary_content st.sentiment_result "情绪分析出错: ") "情绪分析未能完成" ++
        "\n\n===================\n【基本面技术分析报告】\n===================\n" ++
        nonEmptyOr (summary_content st.fundamental_result "基本面分析出错: ") "基本面分析未能完成" ++
        "\n\n===================\n【看涨分析报告（多头视角）】\n===================\n",
      "\n\n===================\n【看跌分析报告（空头视角）】\n===================\n" ++
        nonEmptyOr (summary_content st.bearish_result "看跌分析出错: ") "看跌分析未能完成" ++
        "\n\n请整合以上所有信息，特别关注看涨和看跌分析师的对立观点，形成平衡的投资判断，生成一份完整的综合投资报告，并保存到文件。\n", ?_⟩
    simp only [summary_query, hc,
      nonEmptyOr_of_ne ("看涨分析出错: " ++ e) "看涨分析未能完成" hne, String.append_assoc]
  · intro d rest e h1 h2 h3
    have hc : summary_content st.bearish_result "看跌分析出错: " = "看跌分析出错: " ++ e := by
      rw [h1]; simp [summary_content, h2, h3]
    have hne : ¬("看跌分析出错: " ++ e = "") := append_left_ne_empty _ _ (by decide)
    refine ⟨"请基于以下五个分析报告生成综合投资报告：\n\n分析品种: " ++ st.keyword ++ " (" ++
        st.symbol ++ ")\n\n===================\n【新闻分析报告】\n===================\n" ++
        nonEmptyOr (summary_content st.news_result "新闻分析出错: ") "新闻分析未能完成" ++
        "\n\n===================\n【情绪分析报告】\n===================\n" ++
        nonEmptyOr (summary_content st.sentiment_result "情绪分析出错: ") "情绪分析未能完成" ++
        "\n\n===================\n【基本面技术分析报告】\n===================\n" ++
        nonEmptyOr (summary_content st.fundamental_result "基本面分析出错: ") "基本面分析未能完成" ++
        "\n\n===================\n【看涨分析报告（多头视角）】\n===================\n" ++
        nonEmptyOr (summary_content st.bullish_result "看涨分析出错: ") "看涨分析未能完成" ++
        "\n\n===================\n【看跌分析报告（空头视角）】\n===================\n",
      "\n\n请整合以上所有信息，特别关注看涨和看跌分析师的对立观点，形成平衡的投资判断，生成一份完整的综合投资报告，并保存到文件。\n", ?_⟩
    simp only [summary_query, hc,
      nonEmptyOr_of_ne ("看跌分析出错: " ++ e) "看跌分析未能完成" hne, String.append_assoc]
  · cases h : a (summary_query st) <;> simp [generate_summary, h]
  · intro r h; simp [applyUpdate, h]

/-- Witness for claim C5: a failed news slot's prefixed error message
appears verbatim in the summary query at a concrete state. -/
theorem generate_summary_substitutes_error_messages_witness :
    ∃ p s,
      summary_query
        { initial_state "ss" "不锈钢" with
            news_result := [{ status := some "error", error := some "boom" }] }
        = p ++ ("新闻分析出错: " ++ "boom") ++ s :=
  (generate_summary_substitutes_error_messages
      { initial_state "ss" "不锈钢" with
          news_result := [{ status := some "error", error := some "boom" }] }
      (fun _ => Except.ok [])).1
    { status := some "error", error := some "boom" } [] "boom" rfl rfl rfl
